import Mathlib

/-!
Verification development for the Transaction-Extractor repository.

The embedding models the pure core of the pipeline:
  * `cleanAmount` / `clean_amount_series` — the amount normalizer
    (`clean_amount_series` in `app.py`);
  * `analyze_csv_file` — the schema classifier and aggregator
    (`analyze_csv_file` in `app.py`), acting on an already-parsed table
    (the pandas DataFrame obtained from `pd.read_csv`);
  * `validate_csv_structure` — the CSV structural validator
    (`validate_csv_structure` in `llm.py`).

Numeric values are modelled as rationals; Python float parsing is modelled
on decimal notation (optional sign, digits, at most one decimal point,
optional exponent), which covers every value the cleaning regexes can
produce and the CSV fields the validator checks.
-/

unseal Rat.add Rat.sub Rat.mul

/-- ASCII lowercasing, Python `str.lower()` on the ASCII names the code
compares (implemented on the character list so that it evaluates). -/
def charToLower (c : Char) : Char :=
  if 'A' ≤ c && c ≤ 'Z' then Char.ofNat (c.toNat + 32) else c

/-- Python `str.lower()`. -/
def strLower (s : String) : String :=
  String.mk (s.toList.map charToLower)

/-- Python `str.strip()`: drop leading and trailing whitespace. -/
def pyStrip (s : String) : String :=
  String.mk (((s.toList.dropWhile Char.isWhitespace).reverse.dropWhile
    Char.isWhitespace).reverse)

/-- Substring test on character lists: `charsPrefix p s` holds when `p` is an
initial segment of `s`. -/
def charsPrefix : List Char → List Char → Bool
  | [], _ => true
  | _ :: _, [] => false
  | a :: as, b :: bs => a == b && charsPrefix as bs

/-- `charsSub p s` holds when `p` occurs contiguously inside `s`. -/
def charsSub : List Char → List Char → Bool
  | pat, [] => pat.isEmpty
  | pat, b :: tail => charsPrefix pat (b :: tail) || charsSub pat tail

/-- `strContains s pat`: Python `pat in s` on strings. -/
def strContains (s pat : String) : Bool :=
  charsSub pat.toList s.toList

/-- The character class of the first cleaning regex in `clean_amount_series`:
`[₹,\s$€£¥INRRsrs]`, i.e. the currency glyphs, the comma, whitespace, and the
individual letters I, N, R, r, s. -/
def currencyChars : List Char := ['₹', ',', '$', '€', '£', '¥', 'I', 'N', 'R', 'r', 's']

/-- First regex pass of `clean_amount_series`: drop currency glyphs, commas,
whitespace, and the letters of INR/Rs/rs. -/
def stripCurrency (s : String) : String :=
  String.mk (s.toList.filter (fun c => !(currencyChars.contains c || c.isWhitespace)))

/-- Second regex pass of `clean_amount_series`: keep only digits, the decimal
point and the minus sign (`[^\d.-]` removed). -/
def keepNumeric (s : String) : String :=
  String.mk (s.toList.filter (fun c => c.isDigit || c == '.' || c == '-'))

/-- Numeric value of a digit string (most significant first). -/
def digitsToNat (cs : List Char) : Nat :=
  cs.foldl (fun a c => a * 10 + (c.toNat - 48)) 0

/-- Parse an unsigned decimal: digits with at most one decimal point and at
least one digit in total (`56`, `56.`, `.5` succeed; `.` and `5-5` fail). -/
def parseUnsignedDec (cs : List Char) : Option ℚ :=
  let intPart := cs.takeWhile (fun c => c ≠ '.')
  let rest := cs.dropWhile (fun c => c ≠ '.')
  let fracPart : Option (List Char) :=
    match rest with
    | [] => some []
    | _ :: fp => if fp.any (fun c => c = '.') then none else some fp
  match fracPart with
  | none => none
  | some fp =>
    if intPart.all Char.isDigit && fp.all Char.isDigit &&
        decide (0 < intPart.length + fp.length) then
      some (mkRat (digitsToNat (intPart ++ fp)) (10 ^ fp.length))
    else none

/-- `pd.to_numeric(..., errors="coerce")` restricted to the strings the
cleaning passes can produce (digits, one optional leading minus, at most one
decimal point): the successful parses agree with Python float parsing. -/
def parseNumQ (s : String) : Option ℚ :=
  match s.toList with
  | '-' :: rest => (parseUnsignedDec rest).map (fun q => -q)
  | cs => parseUnsignedDec cs

/-- One element of `clean_amount_series` (`app.py` lines 107-119): strip the
currency character class, keep only `[\d.-]`, map the exact strings
`nan/NaN//None/null` to `"0"`, then parse, coercing failures to 0. -/
def cleanAmount (v : String) : ℚ :=
  let c := keepNumeric (stripCurrency v)
  let c := if c ∈ ["nan", "NaN", "", "None", "null"] then "0" else c
  match parseNumQ c with
  | some q => q
  | none => 0

/-- `clean_amount_series` from `app.py`: an empty series is replaced by the
singleton `pd.Series([0])`; otherwise every element is cleaned in place. -/
def clean_amount_series (series : List String) : List ℚ :=
  if series.length = 0 then [0] else series.map cleanAmount

example : cleanAmount "" = 0 := by decide
example : cleanAmount "N/A" = 0 := by decide
example : cleanAmount "—" = 0 := by decide
example : cleanAmount "1,23,456.78 Cr" = mkRat 12345678 100 := by decide
example : cleanAmount "-45.00" = -45 := by decide
example : cleanAmount "₹50,000.00" = 50000 := by decide
example : clean_amount_series [] = [0] := by decide

/-! ## The table model

A `Table` is the parsed CSV as seen by `analyze_csv_file` once
`pd.read_csv` has produced a DataFrame: an ordered header of column names
and rows of raw text fields aligned by position (an absent pandas value
reads back as the empty string, which cleans to 0 exactly as `nan` does). -/

structure Table where
  header : List String
  rows : List (List String)
deriving DecidableEq

/-- Column `i` of the table, top to bottom (pandas `df[col]`). -/
def Table.col (t : Table) (i : Nat) : List String :=
  t.rows.map (fun r => r.getD i "")

/-- Index of the first column carrying `name` (pandas `df[name]`). -/
def Table.colIdx (t : Table) (name : String) : Nat :=
  ((List.range t.header.length).find? (fun i => t.header.getD i "" == name)).getD 0

/-- Column selected by name. -/
def Table.colByName (t : Table) (name : String) : List String :=
  t.col (t.colIdx name)

/-- The analysis outcome of `analyze_csv_file`: the Python dict is modelled
as a record, keys that a branch leaves unset as `none` (or 0 for totals). -/
structure AnalysisResult where
  total_transactions : Nat
  column_schema : List String
  detection_method : Option String
  primary_amount_column : Option String
  total_credit : ℚ
  total_debit : ℚ
  net_amount : ℚ
  statement_type : Option String
  warning : Option String
  error : Option String
deriving DecidableEq

/-- The keyword list of the column scan in `analyze_csv_file` (line 187):
membership is tested by Python `in`, i.e. substring containment. -/
def amountKeywords : List String :=
  ["amount", "credit", "debit", "withdrawal", "deposit", "dr", "cr"]

/-- The scan of `analyze_csv_file` lines 184-193: a column index is kept when
its lowercased, stripped name contains one of the keywords as a substring,
does not contain `balance`, and its cleaned series sums to a positive value. -/
def amountColIdxs (t : Table) : List Nat :=
  (List.range t.header.length).filter (fun i =>
    let colLower := pyStrip (strLower (t.header.getD i ""))
    amountKeywords.any (fun k => strContains colLower k) &&
      !(strContains colLower "balance") &&
      decide ((0 : ℚ) < (clean_amount_series (t.col i)).sum))

/-- The column names the scan selects, in original column order
(`amount_columns` in the source). -/
def amountColumnNames (t : Table) : List String :=
  (amountColIdxs t).map (fun i => t.header.getD i "")

/-- Sum of the cleaned values of column `i`. -/
def colSum (t : Table) (i : Nat) : ℚ :=
  (clean_amount_series (t.col i)).sum

/-- Split a character list at the first `e`/`E` (exponent marker). -/
def splitOnExp (cs : List Char) : List Char × Option (List Char) :=
  let pre := cs.takeWhile (fun c => !(c == 'e' || c == 'E'))
  match cs.dropWhile (fun c => !(c == 'e' || c == 'E')) with
  | [] => (pre, none)
  | _ :: rest => (pre, some rest)

/-- Python `float()` on decimal notation: surrounding whitespace stripped,
optional sign, digits with at most one decimal point, optional exponent. -/
def pyFloat (s : String) : Option ℚ :=
  let cs := (pyStrip s).toList
  let signedPart : Bool × List Char :=
    match cs with
    | '-' :: r => (true, r)
    | '+' :: r => (false, r)
    | _ => (false, cs)
  let (mant, expPart) := splitOnExp signedPart.2
  match parseUnsignedDec mant with
  | none => none
  | some m =>
    let applied : Option ℚ :=
      match expPart with
      | none => some m
      | some ec =>
        let esigned : Bool × List Char :=
          match ec with
          | '-' :: r => (true, r)
          | '+' :: r => (false, r)
          | _ => (false, ec)
        if esigned.2 ≠ [] && esigned.2.all Char.isDigit then
          let p := 10 ^ digitsToNat esigned.2
          some (if esigned.1 then m * mkRat 1 p else m * mkRat p 1)
        else none
    applied.map (fun v => if signedPart.1 then -v else v)

/-- pandas `read_csv` dtype inference, shallowly: a column reads back as a
numeric dtype (`np.number`) when every field is empty (missing → NaN) or
parses as a Python float. -/
def isNumericCol (vals : List String) : Bool :=
  vals.all (fun v => pyStrip v == "" || (pyFloat v).isSome)

/-- The canonical 5-column bank-statement header tested at line 147. -/
def canonicalBank5 : List String :=
  ["Date", "Description", "Amount_Credit", "Amount_Debit", "Balance"]

/-- The canonical 4-column credit-card header tested at line 163. -/
def canonicalCard4 : List String :=
  ["Date", "Description", "Amount", "Transaction_Type"]

/-- The early-return dict for an empty DataFrame (lines 126-132). -/
def emptyFileResult : AnalysisResult :=
  { total_transactions := 0, column_schema := [], detection_method := some "Empty File",
    primary_amount_column := none, total_credit := 0, total_debit := 0, net_amount := 0,
    statement_type := none, warning := none, error := some "CSV file is empty" }

/-- The initial `analysis_result` dict (lines 134-143). -/
def baseResult (t : Table) : AnalysisResult :=
  { total_transactions := t.rows.length, column_schema := t.header,
    detection_method := none, primary_amount_column := none,
    total_credit := 0, total_debit := 0, net_amount := 0,
    statement_type := none, warning := none, error := none }

/-- Sum of the amounts of the rows whose type field equals `tag` exactly
(the boolean mask `df[col] == tag` followed by a masked sum). -/
def sumWhereType (amounts : List ℚ) (types : List String) (tag : String) : ℚ :=
  (((amounts.zip types).filter (fun p => p.2 == tag)).map Prod.fst).sum

/-- Sum of the amounts of the rows whose type field contains `pat`
case-insensitively (`str.contains(pat, case=False)` followed by a masked sum). -/
def sumWhereContains (amounts : List ℚ) (types : List String) (pat : String) : ℚ :=
  (((amounts.zip types).filter (fun p => strContains (strLower p.2) pat)).map Prod.fst).sum

/-- The rows matched by neither the credit nor the debit mask. -/
def unclassifiedPairs (amounts : List ℚ) (types : List String) : List (ℚ × String) :=
  (amounts.zip types).filter (fun p =>
    !(strContains (strLower p.2) "credit" || strContains (strLower p.2) "debit"))

/-- The exact canonical 5-column branch (lines 147-161). -/
def canonical5Result (t : Table) : AnalysisResult :=
  let credit_total := (clean_amount_series (t.colByName "Amount_Credit")).sum
  let debit_total := (clean_amount_series (t.colByName "Amount_Debit")).sum
  { baseResult t with
    detection_method := some "Bank Statement (5-Column Schema)",
    primary_amount_column := some "Amount_Credit & Amount_Debit",
    total_credit := credit_total,
    total_debit := debit_total,
    net_amount := credit_total - debit_total,
    statement_type := some "Bank Statement" }

/-- The exact canonical 4-column branch (lines 163-179): row classification
is by exact string equality of `Transaction_Type` with `Credit` / `Debit`. -/
def canonical4Result (t : Table) : AnalysisResult :=
  let amounts := clean_amount_series (t.colByName "Amount")
  let types := t.colByName "Transaction_Type"
  let credit_total := sumWhereType amounts types "Credit"
  let debit_total := sumWhereType amounts types "Debit"
  { baseResult t with
    detection_method := some "Credit Card Statement (4-Column Schema)",
    primary_amount_column := some "Amount",
    total_credit := credit_total,
    total_debit := debit_total,
    net_amount := credit_total - debit_total,
    statement_type := some "Credit Card" }

/-- The two-amount-column branch (lines 195-213): first scanned column is the
credit side, second the debit side. -/
def twoAmountResult (t : Table) (i j : Nat) : AnalysisResult :=
  let firstName := t.header.getD i ""
  let secondName := t.header.getD j ""
  let first_total := colSum t i
  let second_total := colSum t j
  { baseResult t with
    detection_method := some "Legacy Bank Statement (2 Amount Columns)",
    primary_amount_column := some (firstName ++ " & " ++ secondName),
    total_credit := first_total,
    total_debit := second_total,
    net_amount := first_total - second_total,
    statement_type := some "Bank Statement",
    warning := some "Non-standard schema detected, amounts assigned by column order" }

/-- The type-column search of lines 219-223: first column whose lowercased
name contains `type` or `transaction`. -/
def typeColIdx (t : Table) : Option Nat :=
  (List.range t.header.length).find? (fun k =>
    strContains (strLower (t.header.getD k "")) "type" ||
      strContains (strLower (t.header.getD k "")) "transaction")

/-- The one-amount-column branch (lines 215-255). -/
def oneAmountResult (t : Table) (i : Nat) : AnalysisResult :=
  let amountName := t.header.getD i ""
  let amounts := clean_amount_series (t.col i)
  match typeColIdx t with
  | some k =>
    let types := t.col k
    let credit_total := sumWhereContains amounts types "credit"
    let debit_total := sumWhereContains amounts types "debit"
    let unclassified := unclassifiedPairs amounts types
    let unclassified_total := (unclassified.map Prod.fst).sum
    { baseResult t with
      detection_method := some "Legacy Credit Card (Type Detection)",
      primary_amount_column := some amountName,
      total_credit := credit_total,
      total_debit := debit_total + unclassified_total,
      net_amount := credit_total - (debit_total + unclassified_total),
      statement_type := some "Credit Card",
      warning := some ("Non-standard schema, " ++ toString unclassified.length
        ++ " unclassified transactions treated as debits") }
  | none =>
    let total_amount := amounts.sum
    { baseResult t with
      detection_method := some "Single Amount Column (All Debits)",
      primary_amount_column := some amountName,
      total_credit := 0,
      total_debit := total_amount,
      net_amount := -total_amount,
      statement_type := some "Unknown",
      warning := some
        "All transactions treated as debits due to lack of transaction type information" }

/-- The numeric-column fallback filter of lines 257-260. -/
def fallbackColIdxs (t : Table) : List Nat :=
  ((List.range t.header.length).filter (fun i => isNumericCol (t.col i))).filter (fun i =>
    !(["balance", "total", "running", "outstanding"].any (fun k =>
        strContains (strLower (t.header.getD i "")) k)))

/-- The no-amount-column branch (lines 256-280). -/
def zeroAmountResult (t : Table) : AnalysisResult :=
  match fallbackColIdxs t with
  | [] =>
    { baseResult t with
      detection_method := some "No Amount Columns Found",
      error := some "No suitable amount columns detected in the CSV file" }
  | i :: _ =>
    let name := t.header.getD i ""
    let total_amount := colSum t i
    { baseResult t with
      detection_method := some "Fallback Numeric Column",
      primary_amount_column := some name,
      total_credit := 0,
      total_debit := total_amount,
      net_amount := -total_amount,
      statement_type := some "Fallback",
      warning := some ("Used fallback column: " ++ name ++ ", schema not recognized") }

/-- `analyze_csv_file` from `app.py` (lines 121-290), on the parsed table. -/
def analyze_csv_file (t : Table) : AnalysisResult :=
  if t.rows.length = 0 then emptyFileResult
  else if t.header.length = 5 ∧ t.header = canonicalBank5 then canonical5Result t
  else if t.header.length = 4 ∧ t.header = canonicalCard4 then canonical4Result t
  else
    match amountColIdxs t with
    | [i, j] => twoAmountResult t i j
    | [i] => oneAmountResult t i
    | _ => zeroAmountResult t

example :
    (analyze_csv_file
      ⟨["Date", "Description", "Amount_Credit", "Amount_Debit", "Balance"],
       [["01/01/2024", "SALARY", "50000.00", "0", "50000.00"]]⟩).total_credit = 50000 := by
  decide

example :
    (analyze_csv_file ⟨["Amount"], [["500.00"]]⟩).total_debit = 500 := by
  decide

example :
    (analyze_csv_file ⟨["Description", "Amount"], [["ITEM1", "500.00"]]⟩).total_credit = 1 := by
  decide

/-! ## CSV structural validation (`validate_csv_structure` in `llm.py`) -/

/-- Python `text.split(chr(10))` on a character list. -/
def splitOnNl : List Char → List (List Char)
  | [] => [[]]
  | c :: rest =>
    let r := splitOnNl rest
    if c == '\n' then [] :: r
    else
      match r with
      | [] => [[c]]
      | h :: t => (c :: h) :: t

/-- State machine of the `csv.reader` field splitter for a single line:
fields are comma-separated, a double quote toggles quoting, and commas inside
quotes belong to the field. -/
def parseCsvLineAux : Bool → List Char → List String → List Char → List String
  | _, cur, acc, [] => acc ++ [String.mk cur]
  | true, cur, acc, c :: rest =>
    if c == '"' then parseCsvLineAux false cur acc rest
    else parseCsvLineAux true (cur ++ [c]) acc rest
  | false, cur, acc, c :: rest =>
    if c == ',' then parseCsvLineAux false [] (acc ++ [String.mk cur]) rest
    else if c == '"' then parseCsvLineAux true cur acc rest
    else parseCsvLineAux false (cur ++ [c]) acc rest

/-- One stripped, non-blank CSV line parsed into its fields. -/
def parseCsvLine (line : String) : List String :=
  parseCsvLineAux false [] [] line.toList

/-- The only 5-column header `validate_csv_structure` accepts (line 95). -/
def csvBank5 : List String :=
  ["Date", "Description", "First_Amount", "Second_Amount", "Balance"]

/-- The only 4-column header `validate_csv_structure` accepts (line 99). -/
def csvCard4 : List String :=
  ["Date", "Description", "Amount", "Transaction_Type"]

/-- The stripped, non-blank lines of the candidate CSV text (line 80). -/
def csvLines (csv_text : String) : List String :=
  ((splitOnNl csv_text.toList).map (fun cs => pyStrip (String.mk cs))).filter
    (fun l => l != "")

/-- The parsed rows of the candidate CSV text (lines 85-86). -/
def csvRows (csv_text : String) : List (List String) :=
  (csvLines csv_text).map parseCsvLine

/-- The header checks of `validate_csv_structure` (lines 92-103): `none`
when the header passes, otherwise the rejection pair. -/
def headerSchemaErr (header : List String) : Option (Bool × String) :=
  if header.length = 5 then
    if header ≠ csvBank5 then
      some (false, "Bank schema error. Expected: " ++ toString csvBank5
        ++ ", Got: " ++ toString header)
    else none
  else if header.length = 4 then
    if header ≠ csvCard4 then
      some (false, "Credit card schema error. Expected: " ++ toString csvCard4
        ++ ", Got: " ++ toString header)
    else none
  else
    some (false, "Invalid schema. Expected 4 or 5 columns, got "
      ++ toString header.length)

/-- The data-row loop of `validate_csv_structure` (lines 105-126): the first
failing row produces the rejection; `i` is the 1-based row index. -/
def rowFailure (hc : Nat) : Nat → List (List String) → Option (Bool × String)
  | _, [] => none
  | i, row :: rest =>
    if row.length ≠ hc then
      some (false, "Row " ++ toString i ++ ": " ++ toString row.length
        ++ " fields, expected " ++ toString hc)
    else if hc = 5 then
      if (row.getD 2 "" ≠ "" ∧ (pyFloat (row.getD 2 "")).isNone) ∨
          (row.getD 3 "" ≠ "" ∧ (pyFloat (row.getD 3 "")).isNone) ∨
          (row.getD 4 "" ≠ "" ∧ (pyFloat (row.getD 4 "")).isNone) then
        some (false, "Row " ++ toString i ++ ": Invalid amount values")
      else rowFailure hc (i + 1) rest
    else
      if row.getD 2 "" ≠ "" ∧ (pyFloat (row.getD 2 "")).isNone then
        some (false, "Row " ++ toString i ++ ": Invalid amount value")
      else if row.getD 3 "" ≠ "" ∧ ¬ (row.getD 3 "" ∈ ["Credit", "Debit", ""]) then
        some (false, "Row " ++ toString i
          ++ ": Transaction_Type must be Credit or Debit, got " ++ row.getD 3 "")
      else rowFailure hc (i + 1) rest

/-- `validate_csv_structure` from `llm.py` (lines 76-131): strip and drop
blank lines, demand a header plus at least one data row, demand one of the
two canonical headers, then run the row checks; the result is the
`(ok, reason)` pair the Python function returns. -/
def validate_csv_structure (csv_text : String) : Bool × String :=
  if csv_text == "" then (false, "Empty CSV")
  else if (csvLines csv_text).length < 2 then (false, "Need header + data rows")
  else
    match csvRows csv_text with
    | [] => (false, "Need header + data rows")
    | header :: dataRows =>
      match headerSchemaErr header with
      | some e => e
      | none =>
        match rowFailure header.length 1 dataRows with
        | some e => e
        | none =>
          (true, "Valid: " ++ toString dataRows.length ++ " transactions, "
            ++ toString header.length ++ " columns")

example :
    (validate_csv_structure
      "Date,Description,First_Amount,Second_Amount,Balance\n01/01/2024,SALARY,50000.00,0,50000.00").fst
      = true := by decide

example :
    (validate_csv_structure
      "Date,Description,Amount_Credit,Amount_Debit,Balance\n01/01/2024,SALARY,50000.00,0,50000.00").fst
      = false := by decide

example :
    validate_csv_structure "Date,Description,Amount,Transaction_Type\n01/01/2024,SHOP,5.00"
      = (false, "Row 1: 3 fields, expected 4") := by decide

/-! ## Branch lemmas for `analyze_csv_file` -/

/-- A non-empty table with the canonical 4-column header lands in the exact
canonical credit-card branch. -/
theorem analyze_eq_canonical4 (t : Table) (hn : ¬ t.rows.length = 0)
    (h : t.header = canonicalCard4) :
    analyze_csv_file t = canonical4Result t := by
  unfold analyze_csv_file
  rw [if_neg hn]
  rw [if_neg (fun hc => by rw [h] at hc; exact absurd hc.2 (by decide))]
  rw [if_pos ⟨by rw [h]; rfl, h⟩]

/-- A non-empty table matching neither canonical header goes through the
keyword column scan. -/
theorem analyze_eq_scan (t : Table) (hn : ¬ t.rows.length = 0)
    (h5 : t.header ≠ canonicalBank5) (h4 : t.header ≠ canonicalCard4) :
    analyze_csv_file t =
      (match amountColIdxs t with
        | [i, j] => twoAmountResult t i j
        | [i] => oneAmountResult t i
        | _ => zeroAmountResult t) := by
  unfold analyze_csv_file
  rw [if_neg hn, if_neg (fun hc => h5 hc.2), if_neg (fun hc => h4 hc.2)]

/-! ## Claims -/

/-- C1: a table whose header is exactly
`[Date, Description, Amount_Credit, Amount_Debit, Balance]` fires the
exact-canonical-match rule (detection method `Bank Statement (5-Column
Schema)`, statement type `Bank Statement`), and on the single row
`("01/01/2024","SALARY","50000.00","0","50000.00")` the analysis yields
`total_credit = 50000`, `total_debit = 0`, `net_amount = 50000`, and
`total_transactions = 1`. -/
theorem C1_canonical5_roundtrip :
    (analyze_csv_file
        ⟨["Date", "Description", "Amount_Credit", "Amount_Debit", "Balance"],
         [["01/01/2024", "SALARY", "50000.00", "0", "50000.00"]]⟩) =
      { total_transactions := 1,
        column_schema := ["Date", "Description", "Amount_Credit", "Amount_Debit", "Balance"],
        detection_method := some "Bank Statement (5-Column Schema)",
        primary_amount_column := some "Amount_Credit & Amount_Debit",
        total_credit := 50000,
        total_debit := 0,
        net_amount := 50000,
        statement_type := some "Bank Statement",
        warning := none,
        error := none } := by
  decide

/-- C2 counterexample: the keyword scan uses Python substring containment,
so the column named `Description` (whose lowercase name matches the keyword
`cr` as a substring of `des-cr-iption`) IS selected as an amount column as
soon as its cleaned sum is positive — refuting the claim that a column named
`Description` is never selected. -/
theorem C2_scan_counterexample :
    amountColumnNames ⟨["Description"], [["ABC123"]]⟩ = ["Description"] ∧
    (analyze_csv_file ⟨["Description"], [["ABC123"]]⟩).primary_amount_column
      = some "Description" ∧
    (analyze_csv_file ⟨["Description"], [["ABC123"]]⟩).total_debit = 123 := by
  decide

/-- C2 (amended): a column is selected by the keyword scan only when its
lowercased, trimmed name contains one of
`amount, credit, debit, withdrawal, deposit, dr, cr` as a substring
(`cr`/`dr` included, so `Description` and `Address` qualify), does not
contain `balance`, and its cleaned series sums to a positive value. -/
theorem C2_amended_scan_membership (t : Table) (i : Nat)
    (h : i ∈ amountColIdxs t) :
    (amountKeywords.any fun k =>
      strContains (pyStrip (strLower (t.header.getD i ""))) k) = true ∧
    strContains (pyStrip (strLower (t.header.getD i ""))) "balance" = false ∧
    (0 : ℚ) < (clean_amount_series (t.col i)).sum := by
  have hp := (List.mem_filter.mp h).2
  simp only [Bool.and_eq_true, Bool.not_eq_true', decide_eq_true_eq] at hp
  exact ⟨hp.1.1, hp.1.2, hp.2⟩

/-- Witness for C2 (amended), at the `Description` column selected in the
counterexample table. -/
theorem C2_amended_witness :
    (0 ∈ amountColIdxs ⟨["Description"], [["ABC123"]]⟩) ∧
    ((amountKeywords.any fun k =>
        strContains (pyStrip (strLower ((["Description"] : List String).getD 0 ""))) k) = true ∧
      strContains (pyStrip (strLower ((["Description"] : List String).getD 0 ""))) "balance"
        = false ∧
      (0 : ℚ) <
        (clean_amount_series ((⟨["Description"], [["ABC123"]]⟩ : Table).col 0)).sum) :=
  ⟨by decide, C2_amended_scan_membership ⟨["Description"], [["ABC123"]]⟩ 0 (by decide)⟩

/-- C3: the normalizer is total by construction, every element whose cleaned
text fails numeric parsing normalizes to exactly 0, and the listed example
inputs (empty, `N/A`, em-dash, `1,23,456.78 Cr`, `-45.00`, `nan`, `None`,
`null`) evaluate as the spec says. -/
theorem C3_normalizer_total_zero :
    (∀ v : String, parseNumQ (keepNumeric (stripCurrency v)) = none →
      cleanAmount v = 0) ∧
    cleanAmount "" = 0 ∧ cleanAmount "nan" = 0 ∧ cleanAmount "None" = 0 ∧
    cleanAmount "null" = 0 ∧ cleanAmount "N/A" = 0 ∧ cleanAmount "—" = 0 ∧
    cleanAmount "1,23,456.78 Cr" = mkRat 12345678 100 ∧
    cleanAmount "-45.00" = -45 := by
  refine ⟨?_, by decide, by decide, by decide, by decide, by decide, by decide,
    by decide, by decide⟩
  intro v hv
  by_cases hm : keepNumeric (stripCurrency v) ∈ ["nan", "NaN", "", "None", "null"]
  · simp only [cleanAmount, if_pos hm]
    decide
  · simp only [cleanAmount, if_neg hm, hv]

/-- Witness for C3, at an input whose cleaned text fails to parse. -/
theorem C3_witness :
    parseNumQ (keepNumeric (stripCurrency "N/A")) = none ∧ cleanAmount "N/A" = 0 :=
  ⟨by decide, C3_normalizer_total_zero.1 "N/A" (by decide)⟩

/-- C9 counterexample: on the empty input sequence the normalizer returns
the singleton `[0]` (pandas `pd.Series([0])`), whose length 1 differs from
the input length 0 — refuting element-wise length preservation for every
sequence. -/
theorem C9_length_counterexample :
    clean_amount_series [] = [0] ∧
    (clean_amount_series []).length = 1 ∧ ([] : List String).length = 0 := by
  decide

/-- C9 (amended): for every non-empty input sequence the normalizer returns
a sequence of numeric values of equal length, element-wise; the empty
sequence alone is replaced by the singleton `[0]`. -/
theorem C9_amended_length (s : List String) (h : s ≠ []) :
    (clean_amount_series s).length = s.length := by
  unfold clean_amount_series
  rw [if_neg (fun hc => h (List.length_eq_zero.mp hc))]
  simp

/-- Witness for C9 (amended), at a one-element series. -/
theorem C9_amended_witness :
    (["₹1,000"] : List String) ≠ [] ∧
    (clean_amount_series ["₹1,000"]).length = (["₹1,000"] : List String).length :=
  ⟨by decide, C9_amended_length ["₹1,000"] (by decide)⟩

/-- A canonical 4-column table whose `Transaction_Type` values are exactly
`Credit`, lowercase `credit`, empty, `Debit`, and `Other`. -/
def mixedTypeTable : Table :=
  ⟨canonicalCard4,
   [["01/01", "a", "100", "Credit"], ["02/01", "b", "50", "credit"],
    ["03/01", "c", "25", ""], ["04/01", "d", "30", "Debit"],
    ["05/01", "e", "10", "Other"]]⟩

/-- C10: in the exact canonical 4-column branch a row is credited only when
its `Transaction_Type` is exactly the string `Credit` and debited only when
it is exactly `Debit`; on the mixed table the values `credit`, the empty
string and `Other` count to neither side, so
`total_credit + total_debit = 130 < 215`, the sum of the amount column. -/
theorem C10_canonical4_exact_type_match (t : Table)
    (hn : ¬ t.rows.length = 0) (h : t.header = canonicalCard4) :
    ((analyze_csv_file t).total_credit =
        sumWhereType (clean_amount_series (t.colByName "Amount"))
          (t.colByName "Transaction_Type") "Credit" ∧
      (analyze_csv_file t).total_debit =
        sumWhereType (clean_amount_series (t.colByName "Amount"))
          (t.colByName "Transaction_Type") "Debit") ∧
    ((analyze_csv_file mixedTypeTable).total_credit = 100 ∧
      (analyze_csv_file mixedTypeTable).total_debit = 30 ∧
      (analyze_csv_file mixedTypeTable).total_credit +
          (analyze_csv_file mixedTypeTable).total_debit <
        (clean_amount_series (mixedTypeTable.colByName "Amount")).sum) := by
  refine ⟨?_, by decide, by decide, by decide⟩
  rw [analyze_eq_canonical4 t hn h]
  exact ⟨rfl, rfl⟩

/-- Witness for C10, at the mixed-type table. -/
theorem C10_witness :
    (analyze_csv_file mixedTypeTable).total_credit =
        sumWhereType (clean_amount_series (mixedTypeTable.colByName "Amount"))
          (mixedTypeTable.colByName "Transaction_Type") "Credit" ∧
    (analyze_csv_file mixedTypeTable).total_debit =
        sumWhereType (clean_amount_series (mixedTypeTable.colByName "Amount"))
          (mixedTypeTable.colByName "Transaction_Type") "Debit" :=
  (C10_canonical4_exact_type_match mixedTypeTable (by decide) rfl).1

/-- A non-canonical table with two keyword-matching amount columns. -/
def twoColTable : Table := ⟨["Credit_Amt", "Debit_Amt"], [["100", "40"]]⟩

/-- C4: when the keyword scan selects exactly two monetary columns, the
first in original column order becomes the credit side, the second the debit
side, the kind is `Bank Statement`, and the column-order warning is
attached. -/
theorem C4_two_amount_columns (t : Table) (i j : Nat)
    (hn : ¬ t.rows.length = 0)
    (h5 : t.header ≠ canonicalBank5) (h4 : t.header ≠ canonicalCard4)
    (hs : amountColIdxs t = [i, j]) :
    (analyze_csv_file t).total_credit = colSum t i ∧
    (analyze_csv_file t).total_debit = colSum t j ∧
    (analyze_csv_file t).net_amount = colSum t i - colSum t j ∧
    (analyze_csv_file t).statement_type = some "Bank Statement" ∧
    (analyze_csv_file t).detection_method
      = some "Legacy Bank Statement (2 Amount Columns)" ∧
    (analyze_csv_file t).warning
      = some "Non-standard schema detected, amounts assigned by column order" := by
  rw [analyze_eq_scan t hn h5 h4, hs]
  exact ⟨rfl, rfl, rfl, rfl, rfl, rfl⟩

/-- Witness for C4, at a two-amount-column table where the scan selects the
columns 0 and 1. -/
theorem C4_witness :
    amountColIdxs twoColTable = [0, 1] ∧
    (analyze_csv_file twoColTable).total_credit = colSum twoColTable 0 ∧
    (analyze_csv_file twoColTable).total_debit = colSum twoColTable 1 ∧
    (analyze_csv_file twoColTable).warning
      = some "Non-standard schema detected, amounts assigned by column order" :=
  ⟨by decide,
   (C4_two_amount_columns twoColTable 0 1 (by decide) (by decide) (by decide)
     (by decide)).1,
   (C4_two_amount_columns twoColTable 0 1 (by decide) (by decide) (by decide)
     (by decide)).2.1,
   (C4_two_amount_columns twoColTable 0 1 (by decide) (by decide) (by decide)
     (by decide)).2.2.2.2.2⟩

/-- C5: with exactly one monetary column, rows are credited when the type
value contains `credit` case-insensitively and debited when it contains
`debit`; rows matching neither are added to `total_debit` and counted in the
warning; with no type column every amount is a debit, the kind is `Unknown`
and a warning is present — in particular `Amount = ["500.00"]` yields
`total_debit = 500`, `total_credit = 0` and a warning. -/
theorem C5_one_amount_column (t : Table) (i : Nat)
    (hn : ¬ t.rows.length = 0)
    (h5 : t.header ≠ canonicalBank5) (h4 : t.header ≠ canonicalCard4)
    (hs : amountColIdxs t = [i]) :
    (∀ k, typeColIdx t = some k →
      (analyze_csv_file t).total_credit =
        sumWhereContains (clean_amount_series (t.col i)) (t.col k) "credit" ∧
      (analyze_csv_file t).total_debit =
        sumWhereContains (clean_amount_series (t.col i)) (t.col k) "debit" +
          ((unclassifiedPairs (clean_amount_series (t.col i)) (t.col k)).map
            Prod.fst).sum ∧
      (analyze_csv_file t).warning = some ("Non-standard schema, "
        ++ toString (unclassifiedPairs (clean_amount_series (t.col i)) (t.col k)).length
        ++ " unclassified transactions treated as debits")) ∧
    (typeColIdx t = none →
      (analyze_csv_file t).total_credit = 0 ∧
      (analyze_csv_file t).total_debit = (clean_amount_series (t.col i)).sum ∧
      (analyze_csv_file t).statement_type = some "Unknown" ∧
      (analyze_csv_file t).warning = some
        "All transactions treated as debits due to lack of transaction type information") ∧
    ((analyze_csv_file ⟨["Amount"], [["500.00"]]⟩).total_debit = 500 ∧
      (analyze_csv_file ⟨["Amount"], [["500.00"]]⟩).total_credit = 0 ∧
      (analyze_csv_file ⟨["Amount"], [["500.00"]]⟩).warning.isSome = true) := by
  have ha : analyze_csv_file t = oneAmountResult t i := by
    rw [analyze_eq_scan t hn h5 h4, hs]
  refine ⟨?_, ?_, by decide, by decide, by decide⟩
  · intro k hk
    rw [ha]
    unfold oneAmountResult
    rw [hk]
    exact ⟨rfl, rfl, rfl⟩
  · intro hk
    rw [ha]
    unfold oneAmountResult
    rw [hk]
    exact ⟨rfl, rfl, rfl, rfl⟩

/-- A one-amount-column table with a type column of mixed markers. -/
def oneColTypeTable : Table :=
  ⟨["Amount", "Type"], [["100", "credit"], ["50", "debit"], ["25", "other"]]⟩

/-- Witness for C5, at a table whose type column classifies 100 as credit,
50 as debit, and leaves 25 unclassified (counted as a debit). -/
theorem C5_witness :
    amountColIdxs oneColTypeTable = [0] ∧ typeColIdx oneColTypeTable = some 1 ∧
    ((analyze_csv_file oneColTypeTable).total_credit =
        sumWhereContains (clean_amount_series (oneColTypeTable.col 0))
          (oneColTypeTable.col 1) "credit" ∧
      (analyze_csv_file oneColTypeTable).total_debit =
        sumWhereContains (clean_amount_series (oneColTypeTable.col 0))
          (oneColTypeTable.col 1) "debit" +
          ((unclassifiedPairs (clean_amount_series (oneColTypeTable.col 0))
            (oneColTypeTable.col 1)).map Prod.fst).sum ∧
      (analyze_csv_file oneColTypeTable).warning = some ("Non-standard schema, "
        ++ toString (unclassifiedPairs (clean_amount_series (oneColTypeTable.col 0))
            (oneColTypeTable.col 1)).length
        ++ " unclassified transactions treated as debits")) ∧
    (analyze_csv_file oneColTypeTable).total_credit = 100 ∧
    (analyze_csv_file oneColTypeTable).total_debit = 75 :=
  ⟨by decide, by decide,
   (C5_one_amount_column oneColTypeTable 0 (by decide) (by decide) (by decide)
      (by decide)).1 1 (by decide),
   by decide, by decide⟩

/-- A table with no keyword-matching column but a numeric `Value` column. -/
def fallbackTable : Table := ⟨["Date", "Value"], [["01/01", "10"], ["02/01", "5"]]⟩

/-- A table with no amount-like and no numeric column at all. -/
def refOnlyTable : Table :=
  ⟨["Date", "Description", "Reference_Number"], [["01/01/2024", "X", "REF1"]]⟩

/-- C6: with no monetary column the classifier falls back to the first
numeric column whose name avoids `balance`/`total`/`running`/`outstanding`,
treating its whole sum as debit with kind `Fallback` and a warning naming
the column; with no such column either, the analysis returns the
`no amount columns detected` outcome as data, with `total_transactions`
still the row count and all three totals 0. -/
theorem C6_no_amount_columns (t : Table)
    (hn : ¬ t.rows.length = 0)
    (h5 : t.header ≠ canonicalBank5) (h4 : t.header ≠ canonicalCard4)
    (hs : amountColIdxs t = []) :
    (∀ i rest, fallbackColIdxs t = i :: rest →
      (analyze_csv_file t).total_credit = 0 ∧
      (analyze_csv_file t).total_debit = colSum t i ∧
      (analyze_csv_file t).net_amount = -colSum t i ∧
      (analyze_csv_file t).statement_type = some "Fallback" ∧
      (analyze_csv_file t).detection_method = some "Fallback Numeric Column" ∧
      (analyze_csv_file t).warning = some
        ("Used fallback column: " ++ t.header.getD i "" ++ ", schema not recognized")) ∧
    (fallbackColIdxs t = [] →
      (analyze_csv_file t).error
        = some "No suitable amount columns detected in the CSV file" ∧
      (analyze_csv_file t).detection_method = some "No Amount Columns Found" ∧
      (analyze_csv_file t).total_transactions = t.rows.length ∧
      (analyze_csv_file t).total_credit = 0 ∧
      (analyze_csv_file t).total_debit = 0 ∧
      (analyze_csv_file t).net_amount = 0) := by
  have ha : analyze_csv_file t = zeroAmountResult t := by
    rw [analyze_eq_scan t hn h5 h4, hs]
  constructor
  · intro i rest hf
    rw [ha]
    unfold zeroAmountResult
    rw [hf]
    exact ⟨rfl, rfl, rfl, rfl, rfl, rfl⟩
  · intro hf
    rw [ha]
    unfold zeroAmountResult
    rw [hf]
    exact ⟨rfl, rfl, rfl, rfl, rfl, rfl⟩

/-- Witness for C6: the `Value` column is used as fallback debit on one
table, and the reference-only table reaches the explicit no-amount-columns
outcome with its row count preserved. -/
theorem C6_witness :
    (amountColIdxs fallbackTable = [] ∧ fallbackColIdxs fallbackTable = [1] ∧
      (analyze_csv_file fallbackTable).total_debit = colSum fallbackTable 1 ∧
      (analyze_csv_file fallbackTable).statement_type = some "Fallback") ∧
    (amountColIdxs refOnlyTable = [] ∧ fallbackColIdxs refOnlyTable = [] ∧
      (analyze_csv_file refOnlyTable).error
        = some "No suitable amount columns detected in the CSV file" ∧
      (analyze_csv_file refOnlyTable).total_transactions = refOnlyTable.rows.length ∧
      (analyze_csv_file refOnlyTable).total_debit = 0) :=
  ⟨⟨by decide, by decide,
    (((C6_no_amount_columns fallbackTable (by decide) (by decide) (by decide)
        (by decide)).1 1 [] (by decide))).2.1,
    (((C6_no_amount_columns fallbackTable (by decide) (by decide) (by decide)
        (by decide)).1 1 [] (by decide))).2.2.2.1⟩,
   ⟨by decide, by decide,
    (((C6_no_amount_columns refOnlyTable (by decide) (by decide) (by decide)
        (by decide)).2 (by decide))).1,
    (((C6_no_amount_columns refOnlyTable (by decide) (by decide) (by decide)
        (by decide)).2 (by decide))).2.2.1,
    (((C6_no_amount_columns refOnlyTable (by decide) (by decide) (by decide)
        (by decide)).2 (by decide))).2.2.2.2.1⟩⟩

/-- Every rejection the header check produces carries `false`. -/
theorem headerSchemaErr_some_false (header : List String) (e : Bool × String)
    (h : headerSchemaErr header = some e) : e.1 = false := by
  unfold headerSchemaErr at h
  split at h
  · split at h
    · cases h; rfl
    · cases h
  · split at h
    · split at h
      · cases h; rfl
      · cases h
    · cases h; rfl

/-- The header check passes only the two canonical headers. -/
theorem headerSchemaErr_none (header : List String)
    (h : headerSchemaErr header = none) : header = csvBank5 ∨ header = csvCard4 := by
  unfold headerSchemaErr at h
  split at h
  · split at h
    · cases h
    · rename_i hne
      exact Or.inl (not_not.mp hne)
  · split at h
    · split at h
      · cases h
      · rename_i hne
        exact Or.inr (not_not.mp hne)
    · cases h

/-- Every rejection the row loop produces carries `false`. -/
theorem rowFailure_some_false (hc : Nat) :
    ∀ (i : Nat) (rows : List (List String)) (e : Bool × String),
      rowFailure hc i rows = some e → e.1 = false := by
  intro i rows
  induction rows generalizing i with
  | nil => intro e h; cases h
  | cons r rest ih =>
    intro e h
    unfold rowFailure at h
    split at h
    · cases h; rfl
    · split at h
      · split at h
        · cases h; rfl
        · exact ih _ _ h
      · split at h
        · cases h; rfl
        · split at h
          · cases h; rfl
          · exact ih _ _ h

/-- If the row loop passes, every row has exactly `hc` fields. -/
theorem rowFailure_none_lengths (hc : Nat) :
    ∀ (i : Nat) (rows : List (List String)),
      rowFailure hc i rows = none → ∀ row ∈ rows, row.length = hc := by
  intro i rows
  induction rows generalizing i with
  | nil => intro _ row hm; cases hm
  | cons r rest ih =>
    intro h row hm
    unfold rowFailure at h
    split at h
    · cases h
    · rename_i hlen
      rcases List.mem_cons.mp hm with rfl | hm2
      · exact not_not.mp hlen
      · split at h
        · split at h
          · cases h
          · exact ih _ h row hm2
        · split at h
          · cases h
          · split at h
            · cases h
            · exact ih _ h row hm2

/-- A parsed document whose header fails the schema check is rejected. -/
theorem validate_header_rejected (csv_text : String) (header : List String)
    (dataRows : List (List String)) (hrows : csvRows csv_text = header :: dataRows)
    (e : Bool × String) (hse : headerSchemaErr header = some e) :
    (validate_csv_structure csv_text).1 = false := by
  unfold validate_csv_structure
  split
  · rfl
  · split
    · rfl
    · simp only [hrows]
      rw [hse]
      exact headerSchemaErr_some_false header e hse

/-- C7 counterexample: on the 5-column document with header
`Date,Description,Amount_Credit,Amount_Debit,Balance` — whose rows do pass
every later check, as its `First_Amount,Second_Amount` twin is accepted —
the validator rejects, refuting the claim that both canonical bank-statement
variants are accepted. -/
theorem C7_validator_counterexample :
    (validate_csv_structure
      "Date,Description,Amount_Credit,Amount_Debit,Balance\n01/01/2024,SALARY,50000.00,0,50000.00").1
      = false ∧
    (validate_csv_structure
      "Date,Description,First_Amount,Second_Amount,Balance\n01/01/2024,SALARY,50000.00,0,50000.00").1
      = true := by
  decide

/-- C7 (amended): the only 5-column header the validator accepts is
`Date,Description,First_Amount,Second_Amount,Balance` (such a document with
numeric rows passes); any parsed document whose header column count is
neither 4 nor 5, or whose header differs — order-sensitively — from the
canonical name sequence for its count, is rejected. -/
theorem C7_amended_header_gate :
    (validate_csv_structure
      "Date,Description,First_Amount,Second_Amount,Balance\n01/01/2024,SALARY,50000.00,0,50000.00").1
      = true ∧
    (∀ (csv_text : String) (header : List String) (dataRows : List (List String)),
      csvRows csv_text = header :: dataRows →
      header.length ≠ 4 → header.length ≠ 5 →
      (validate_csv_structure csv_text).1 = false) ∧
    (∀ (csv_text : String) (header : List String) (dataRows : List (List String)),
      csvRows csv_text = header :: dataRows →
      header.length = 5 → header ≠ csvBank5 →
      (validate_csv_structure csv_text).1 = false) ∧
    (∀ (csv_text : String) (header : List String) (dataRows : List (List String)),
      csvRows csv_text = header :: dataRows →
      header.length = 4 → header ≠ csvCard4 →
      (validate_csv_structure csv_text).1 = false) := by
  refine ⟨by decide, ?_, ?_, ?_⟩
  · intro csv_text header dataRows hrows h4 h5
    cases hse : headerSchemaErr header with
    | some e => exact validate_header_rejected csv_text header dataRows hrows e hse
    | none =>
      exfalso
      rcases headerSchemaErr_none header hse with rfl | rfl
      · exact h5 rfl
      · exact h4 rfl
  · intro csv_text header dataRows hrows hlen hne
    cases hse : headerSchemaErr header with
    | some e => exact validate_header_rejected csv_text header dataRows hrows e hse
    | none =>
      exfalso
      rcases headerSchemaErr_none header hse with rfl | rfl
      · exact hne rfl
      · cases hlen
  · intro csv_text header dataRows hrows hlen hne
    cases hse : headerSchemaErr header with
    | some e => exact validate_header_rejected csv_text header dataRows hrows e hse
    | none =>
      exfalso
      rcases headerSchemaErr_none header hse with rfl | rfl
      · cases hlen
      · exact hne rfl

/-- Witness for C7 (amended): a 3-column header, a reordered 5-column
header, and a non-canonical 4-column header are all rejected. -/
theorem C7_amended_witness :
    (csvRows "A,B,C\n1,2,3" = [["A", "B", "C"], ["1", "2", "3"]] ∧
      (validate_csv_structure "A,B,C\n1,2,3").1 = false) ∧
    (validate_csv_structure
      "Description,Date,First_Amount,Second_Amount,Balance\n01/01/2024,SALARY,50000.00,0,50000.00").1
      = false ∧
    (validate_csv_structure
      "Date,Description,Amount,Type\n01/01/2024,SHOP,5.00,Credit").1 = false :=
  ⟨⟨by decide,
    C7_amended_header_gate.2.1 "A,B,C\n1,2,3" ["A", "B", "C"] [["1", "2", "3"]]
      (by decide) (by decide) (by decide)⟩,
   C7_amended_header_gate.2.2.1
     "Description,Date,First_Amount,Second_Amount,Balance\n01/01/2024,SALARY,50000.00,0,50000.00"
     ["Description", "Date", "First_Amount", "Second_Amount", "Balance"]
     [["01/01/2024", "SALARY", "50000.00", "0", "50000.00"]]
     (by decide) (by decide) (by decide),
   C7_amended_header_gate.2.2.2
     "Date,Description,Amount,Type\n01/01/2024,SHOP,5.00,Credit"
     ["Date", "Description", "Amount", "Type"]
     [["01/01/2024", "SHOP", "5.00", "Credit"]]
     (by decide) (by decide) (by decide)⟩

/-- C8: a document containing a data row whose field count differs from the
header's is rejected whole, and on the concrete 4-column header with a
3-field row the rejection reason cites the row index and both counts. -/
theorem C8_row_count_mismatch_rejected :
    (∀ (csv_text : String) (header : List String) (dataRows : List (List String)),
      csvRows csv_text = header :: dataRows →
      (∃ row ∈ dataRows, row.length ≠ header.length) →
      (validate_csv_structure csv_text).1 = false) ∧
    validate_csv_structure "Date,Description,Amount,Transaction_Type\n01/01/2024,SHOP,5.00"
      = (false, "Row 1: 3 fields, expected 4") := by
  refine ⟨?_, by decide⟩
  intro csv_text header dataRows hrows hbad
  unfold validate_csv_structure
  split
  · rfl
  · split
    · rfl
    · simp only [hrows]
      cases hse : headerSchemaErr header with
      | some e =>
        exact headerSchemaErr_some_false header e hse
      | none =>
        cases hrf : rowFailure header.length 1 dataRows with
        | some e =>
          exact rowFailure_some_false _ _ _ _ hrf
        | none =>
          obtain ⟨row, hm, hne⟩ := hbad
          exact absurd (rowFailure_none_lengths _ _ _ hrf row hm) hne

/-- Witness for C8, at the 4-column header with a 3-field data row. -/
theorem C8_witness :
    csvRows "Date,Description,Amount,Transaction_Type\n01/01/2024,SHOP,5.00"
      = [["Date", "Description", "Amount", "Transaction_Type"],
         ["01/01/2024", "SHOP", "5.00"]] ∧
    (validate_csv_structure
      "Date,Description,Amount,Transaction_Type\n01/01/2024,SHOP,5.00").1 = false :=
  ⟨by decide,
   C8_row_count_mismatch_rejected.1
     "Date,Description,Amount,Transaction_Type\n01/01/2024,SHOP,5.00"
     ["Date", "Description", "Amount", "Transaction_Type"]
     [["01/01/2024", "SHOP", "5.00"]]
     (by decide)
     ⟨["01/01/2024", "SHOP", "5.00"], by decide, by decide⟩⟩
